import Mathlib

/-!
Shallow embedding of `transcribe.py`, a command-line wrapper around the
Whisper speech-to-text model.  The pure heuristic `estimate_time` is
embedded directly over `ℚ`; the straight-line `main` procedure is embedded
as a pure function from a run environment (existence of the input file,
the operator response, the transcription result, the local wall-clock
time) to an outcome consisting of an exit code and the ordered trace of
observable effects.
-/

namespace Transcribe

/-- The per-model minutes-per-gigabyte table `base_time_per_gb` from
`estimate_time`, combined with the `dict.get(model_size, 30)` access:
a lookup that falls back to 30 for identifiers outside the table. -/
def base_time_per_gb (model_size : String) : ℚ :=
  if model_size = "tiny" then 5
  else if model_size = "base" then 10
  else if model_size = "small" then 20
  else if model_size = "medium" then 30
  else if model_size = "large" then 45
  else if model_size = "large-v3" then 50
  else 30

/-- `estimate_time(file_size_mb, model_size)`: converts megabytes to
gigabytes, multiplies by the per-model rate, and floors the result at 5
minutes via `max(5, est_minutes)`. -/
def estimate_time (file_size_mb : ℚ) (model_size : String) : ℚ :=
  let file_size_gb := file_size_mb / 1024
  let est_minutes := base_time_per_gb model_size * file_size_gb
  max 5 est_minutes

/-- Models Python `str.lower()` as used in the confirmation check
`response.lower() != 'y'`: characterwise case conversion (Lean's
`Char.toLower` performs the basic-latin conversion, which is all that
matters for comparison against the ASCII string `"y"`). -/
def pyLower (s : String) : String :=
  String.mk (s.data.map Char.toLower)

/-- The preview printed after transcription:
`result["text"][:500]` followed by `"..."` exactly when
`len(result["text"]) > 500`.  Transcript text is embedded as its sequence
of code points. -/
def previewOf (text : List Char) : List Char :=
  text.take 500 ++ (if 500 < text.length then ['.', '.', '.'] else [])

/-- A broken-down local time, the input of `time.strftime`. -/
structure Tm where
  tm_year : Nat
  tm_mon : Nat
  tm_mday : Nat
  tm_hour : Nat
  tm_min : Nat
  tm_sec : Nat
deriving DecidableEq

/-- Two-digit zero-padded decimal field of `strftime` (`%m`, `%d`, `%H`,
`%M`, `%S`); agrees with C `strftime` for the in-range values these
fields take. -/
def pad2 (n : Nat) : List Char :=
  [Char.ofNat (48 + n / 10 % 10), Char.ofNat (48 + n % 10)]

/-- Four-digit zero-padded decimal field of `strftime` (`%Y`); agrees
with C `strftime` for years up to 9999. -/
def pad4 (n : Nat) : List Char :=
  [Char.ofNat (48 + n / 1000 % 10), Char.ofNat (48 + n / 100 % 10),
   Char.ofNat (48 + n / 10 % 10), Char.ofNat (48 + n % 10)]

/-- Models `time.strftime("%Y%m%d_%H%M%S")` on a broken-down local
time. -/
def strftime_YmdHMS (t : Tm) : String :=
  String.mk (pad4 t.tm_year ++ pad2 t.tm_mon ++ pad2 t.tm_mday ++ ['_'] ++
    pad2 t.tm_hour ++ pad2 t.tm_min ++ pad2 t.tm_sec)

/-- Recognizer for the `YYYYMMDD_HHMMSS` timestamp shape: fifteen
characters, all decimal digits except an underscore in position 8. -/
def isTimestampFormat (s : String) : Bool :=
  match s.data with
  | [y1, y2, y3, y4, m1, m2, d1, d2, u, h1, h2, n1, n2, s1, s2] =>
    [y1, y2, y3, y4, m1, m2, d1, d2, h1, h2, n1, n2, s1, s2].all Char.isDigit
      && u == '_'
  | _ => false

/-- Models `os.path.basename` for POSIX paths: the component after the
last separator. -/
def basename (p : String) : String :=
  (p.splitOn "/").getLastD ""

/-- Index of the last `'.'` of a character list, if any. -/
def lastDotIdx (cs : List Char) : Option Nat :=
  match cs.reverse.findIdx? (fun c => c == '.') with
  | some k => some (cs.length - 1 - k)
  | none => none

/-- Models `os.path.splitext(b)[0]` on a basename: everything before the
last dot, except that a name consisting only of leading dots up to that
position is not split. -/
def splitextRoot (b : String) : String :=
  match lastDotIdx b.data with
  | none => b
  | some i =>
    if (b.data.take i).all (fun c => c == '.') then b
    else String.mk (b.data.take i)

/-- Models `os.path.join(d, f)` for a relative second component. -/
def pathJoin (d f : String) : String :=
  if d = "" then f
  else if d.endsWith "/" then d ++ f
  else d ++ "/" ++ f

/-- The run configuration parsed by `argparse`: `--input`, `--model`,
`--language`, `--output_dir`. -/
structure Args where
  input : String
  model : String
  language : String
  output_dir : String
deriving DecidableEq

/-- The ambient state `main` reads: whether `os.path.exists(args.input)`
holds, the file size reported by `os.path.getsize` (in MB), the
operator's `input()` response, the transcript text produced by the model
call, and the local time sampled by `time.strftime` after
transcription. -/
structure Env where
  inputExists : Bool
  fileSizeMB : ℚ
  response : String
  resultText : List Char
  tm : Tm

/-- The keyword arguments of the `model.transcribe(...)` call. -/
structure TranscribeArgs where
  path : String
  language : String
  verbose : Bool
  fp16 : Bool
  task : String
  initial_prompt : String
deriving DecidableEq

/-- One observable effect of `main`, in program order. -/
inductive Event where
  | printHint
  | makeOutputDir
  | printBanner (est_minutes : ℚ)
  | prompt
  | loadModel (name : String)
  | transcribeCall (args : TranscribeArgs)
  | writeFile (path : String)
  | printPreview (text : List Char)
deriving DecidableEq

/-- The result of one run of `main`: the process exit status and the
ordered trace of observable effects. -/
structure Outcome where
  exitCode : Nat
  events : List Event

/-- Straight-line embedding of `main()`:
existence check on the input (exit 1 with a hint if missing), creation of
the output directory, banner with the time estimate, confirmation prompt
(exit 0 on anything whose lowercasing is not `"y"`), model load, the
`model.transcribe` call with its fixed flags, and the two output writes
(`{base}_{lang}_{timestamp}.srt` via the srt writer, then the `.txt`
transcript), followed by the preview print.  Exit status 0 on
completion. -/
def main (a : Args) (env : Env) : Outcome :=
  if ¬env.inputExists then
    { exitCode := 1, events := [Event.printHint] }
  else
    let est_time := estimate_time env.fileSizeMB a.model
    if pyLower env.response ≠ "y" then
      { exitCode := 0,
        events := [Event.makeOutputDir, Event.printBanner est_time, Event.prompt] }
    else
      let tc : TranscribeArgs :=
        { path := a.input, language := a.language, verbose := true, fp16 := true,
          task := "transcribe",
          initial_prompt := "这是一部日语电影，包含清晰的对话。请准确转录。" }
      let base_name := splitextRoot (basename a.input)
      let timestamp := strftime_YmdHMS env.tm
      let srt_path := pathJoin a.output_dir
        (base_name ++ "_" ++ a.language ++ "_" ++ timestamp ++ ".srt")
      let txt_path := pathJoin a.output_dir
        (base_name ++ "_" ++ a.language ++ "_" ++ timestamp ++ ".txt")
      { exitCode := 0,
        events := [Event.makeOutputDir, Event.printBanner est_time, Event.prompt,
          Event.loadModel a.model, Event.transcribeCall tc,
          Event.writeFile srt_path, Event.writeFile txt_path,
          Event.printPreview (previewOf env.resultText)] }

/-- The paths of the files a run writes, in order. -/
def writtenFiles (o : Outcome) : List String :=
  o.events.filterMap fun e =>
    match e with
    | Event.writeFile p => some p
    | _ => none

/-- The model names a run loads, in order. -/
def loadedModels (o : Outcome) : List String :=
  o.events.filterMap fun e =>
    match e with
    | Event.loadModel n => some n
    | _ => none

/-- The transcription calls a run performs, in order. -/
def transcribeCalls (o : Outcome) : List TranscribeArgs :=
  o.events.filterMap fun e =>
    match e with
    | Event.transcribeCall tc => some tc
    | _ => none

/-- A concrete run configuration used to exercise the theorems. -/
def wArgs : Args :=
  { input := "/work/movie.mp4", model := "large-v3", language := "ja",
    output_dir := "./output" }

/-- A concrete completion time used to exercise the theorems. -/
def wTm : Tm :=
  { tm_year := 2026, tm_mon := 10, tm_mday := 12, tm_hour := 3, tm_min := 4,
    tm_sec := 5 }

/-- An environment whose input file is missing. -/
def wEnvMissing : Env :=
  { inputExists := false, fileSizeMB := 100, response := "", resultText := [],
    tm := wTm }

/-- An environment in which the operator declines the confirmation. -/
def wEnvCancel : Env :=
  { inputExists := true, fileSizeMB := 100, response := "n", resultText := [],
    tm := wTm }

/-- An environment in which the operator confirms. -/
def wEnvYes : Env :=
  { inputExists := true, fileSizeMB := 100, response := "y",
    resultText := ['こ', 'ん'], tm := wTm }

lemma base_time_per_gb_nonneg (m : String) : 0 ≤ base_time_per_gb m := by
  unfold base_time_per_gb
  split_ifs <;> norm_num

end Transcribe

/-- C1: for every model identifier (known or unknown) and every
non-negative file size in MB, `estimate_time` returns at least 5. -/
theorem estimate_time_ge_five (file_size_mb : ℚ) (model_size : String)
    (h : 0 ≤ file_size_mb) :
    5 ≤ Transcribe.estimate_time file_size_mb model_size := by
  unfold Transcribe.estimate_time
  exact le_max_left _ _

theorem estimate_time_ge_five_witness :
    (0 : ℚ) ≤ 7 ∧ 5 ≤ Transcribe.estimate_time 7 "whisper-x" :=
  ⟨by norm_num, estimate_time_ge_five 7 "whisper-x" (by norm_num)⟩

/-- C2: for a fixed model identifier, `estimate_time` is monotonically
non-decreasing in the file-size argument. -/
theorem estimate_time_mono (model_size : String) (a b : ℚ) (h : a ≤ b) :
    Transcribe.estimate_time a model_size ≤ Transcribe.estimate_time b model_size := by
  unfold Transcribe.estimate_time
  refine max_le_max (le_refl 5) ?_
  refine mul_le_mul_of_nonneg_left ?_ (Transcribe.base_time_per_gb_nonneg model_size)
  exact (div_le_div_iff_of_pos_right (by norm_num)).mpr h

theorem estimate_time_mono_witness :
    (512 : ℚ) ≤ 4096 ∧
      Transcribe.estimate_time 512 "base" ≤ Transcribe.estimate_time 4096 "base" :=
  ⟨by norm_num, estimate_time_mono "base" 512 4096 (by norm_num)⟩

/-- C3: `estimate_time(1024, "tiny") = 5` and `estimate_time(2048, "base") = 20`. -/
theorem estimate_time_examples :
    Transcribe.estimate_time 1024 "tiny" = 5 ∧
      Transcribe.estimate_time 2048 "base" = 20 := by
  constructor <;> norm_num [Transcribe.estimate_time, Transcribe.base_time_per_gb] <;> decide

/-- C4: any model identifier outside the fixed table behaves exactly like
`"medium"`: both use the default rate of 30 minutes per gigabyte. -/
theorem estimate_time_unknown_eq_medium (file_size_mb : ℚ) (model_size : String)
    (h : model_size ∉ ["tiny", "base", "small", "medium", "large", "large-v3"]) :
    Transcribe.estimate_time file_size_mb model_size =
      Transcribe.estimate_time file_size_mb "medium" := by
  have h' := h
  simp only [List.mem_cons, List.not_mem_nil, or_false, not_or] at h'
  obtain ⟨h1, h2, h3, h4, h5, h6⟩ := h'
  simp [Transcribe.estimate_time, Transcribe.base_time_per_gb, h1, h2, h3, h4, h5, h6]

theorem estimate_time_unknown_eq_medium_witness :
    "turbo" ∉ ["tiny", "base", "small", "medium", "large", "large-v3"] ∧
      Transcribe.estimate_time 2048 "turbo" = Transcribe.estimate_time 2048 "medium" :=
  ⟨by decide, estimate_time_unknown_eq_medium 2048 "turbo" (by decide)⟩

theorem Transcribe.charToLower_eq_y {c : Char} (h : c.toLower = 'y') :
    c = 'y' ∨ c = 'Y' := by
  rw [show c.toLower
      = if c.toNat ≥ 65 ∧ c.toNat ≤ 90 then Char.ofNat (c.toNat + 32) else c
      from rfl] at h
  split at h
  · rename_i hc
    right
    obtain ⟨k, hk⟩ : ∃ k, c.toNat = k := ⟨_, rfl⟩
    rw [hk] at h hc
    obtain ⟨h1, h2⟩ := hc
    have hc' : c = Char.ofNat k := by rw [← hk, Char.ofNat_toNat]
    rw [hc']
    interval_cases k <;> first
      | exact absurd h (by decide)
      | decide
  · exact Or.inl h

theorem Transcribe.pyLower_eq_y {r : String} (h : Transcribe.pyLower r = "y") :
    r = "y" ∨ r = "Y" := by
  obtain ⟨l⟩ := r
  have hl : l.map Char.toLower = ['y'] := congrArg String.data h
  cases l with
  | nil => simp at hl
  | cons c t =>
    cases t with
    | nil =>
      simp at hl
      rcases Transcribe.charToLower_eq_y hl with h' | h'
      · left; rw [h']
      · right; rw [h']
    | cons d t2 => simp at hl

theorem Transcribe.digitChar_isDigit (n : Nat) :
    (Char.ofNat (48 + n % 10)).isDigit = true := by
  have h : n % 10 < 10 := Nat.mod_lt _ (by norm_num)
  obtain ⟨k, hk⟩ : ∃ k, n % 10 = k := ⟨_, rfl⟩
  rw [hk] at h ⊢
  interval_cases k <;> decide

theorem Transcribe.strftime_isTimestampFormat (t : Transcribe.Tm) :
    Transcribe.isTimestampFormat (Transcribe.strftime_YmdHMS t) = true := by
  simp [Transcribe.isTimestampFormat, Transcribe.strftime_YmdHMS, Transcribe.pad4,
    Transcribe.pad2, Transcribe.digitChar_isDigit]

theorem Transcribe.string_append_left_cancel {p f g : String}
    (h : p ++ f = p ++ g) : f = g := by
  have h2 : p.data ++ f.data = p.data ++ g.data := by
    simpa [String.data_append] using congrArg String.data h
  exact String.ext (List.append_cancel_left h2)

theorem Transcribe.pathJoin_ne_of_ne (d : String) {f g : String} (h : f ≠ g) :
    Transcribe.pathJoin d f ≠ Transcribe.pathJoin d g := by
  unfold Transcribe.pathJoin
  split_ifs
  · exact h
  · exact fun hc => h (Transcribe.string_append_left_cancel hc)
  · exact fun hc => h (Transcribe.string_append_left_cancel hc)

theorem Transcribe.ext_srt_ne_txt (s : String) : s ++ ".srt" ≠ s ++ ".txt" := by
  intro h
  have h2 := Transcribe.string_append_left_cancel h
  exact absurd h2 (by decide)

/-- C5: when the input path does not exist, `main` exits with status 1,
prints the remediation hint, and never creates the output directory. -/
theorem main_missing_input (a : Transcribe.Args) (env : Transcribe.Env)
    (h : env.inputExists = false) :
    (Transcribe.main a env).exitCode = 1 ∧
      Transcribe.Event.printHint ∈ (Transcribe.main a env).events ∧
      Transcribe.Event.makeOutputDir ∉ (Transcribe.main a env).events := by
  simp [Transcribe.main, h]

theorem main_missing_input_witness :
    (Transcribe.main Transcribe.wArgs Transcribe.wEnvMissing).exitCode = 1 ∧
      Transcribe.Event.printHint ∈
        (Transcribe.main Transcribe.wArgs Transcribe.wEnvMissing).events ∧
      Transcribe.Event.makeOutputDir ∉
        (Transcribe.main Transcribe.wArgs Transcribe.wEnvMissing).events :=
  main_missing_input Transcribe.wArgs Transcribe.wEnvMissing rfl

/-- C6: with an existing input, any operator response other than `"y"` or
`"Y"` makes `main` exit with status 0, load no model, and write no file. -/
theorem main_cancel (a : Transcribe.Args) (env : Transcribe.Env)
    (hex : env.inputExists = true)
    (h1 : env.response ≠ "y") (h2 : env.response ≠ "Y") :
    (Transcribe.main a env).exitCode = 0 ∧
      Transcribe.loadedModels (Transcribe.main a env) = [] ∧
      Transcribe.writtenFiles (Transcribe.main a env) = [] := by
  have hne : Transcribe.pyLower env.response ≠ "y" := fun hc =>
    (Transcribe.pyLower_eq_y hc).elim h1 h2
  simp [Transcribe.main, hex, hne, Transcribe.loadedModels, Transcribe.writtenFiles]

theorem main_cancel_witness :
    (Transcribe.main Transcribe.wArgs Transcribe.wEnvCancel).exitCode = 0 ∧
      Transcribe.loadedModels (Transcribe.main Transcribe.wArgs Transcribe.wEnvCancel) = [] ∧
      Transcribe.writtenFiles (Transcribe.main Transcribe.wArgs Transcribe.wEnvCancel) = [] :=
  main_cancel Transcribe.wArgs Transcribe.wEnvCancel rfl (by decide) (by decide)

/-- C7: the printed preview is at most 503 characters (500 plus the
`"..."` suffix) when the transcript is longer than 500 characters, and is
exactly the transcript otherwise. -/
theorem preview_bound (text : List Char) :
    (500 < text.length → (Transcribe.previewOf text).length ≤ 503) ∧
      (text.length ≤ 500 → Transcribe.previewOf text = text) := by
  constructor
  · intro h
    simp only [Transcribe.previewOf, if_pos h, List.length_append, List.length_take,
      List.length_cons, List.length_nil]
    omega
  · intro h
    have h' : ¬(500 < text.length) := by omega
    simp [Transcribe.previewOf, h', List.take_of_length_le h]

set_option maxRecDepth 4000 in
theorem preview_bound_witness :
    (Transcribe.previewOf (List.replicate 501 'x')).length ≤ 503 ∧
      Transcribe.previewOf ['x'] = ['x'] :=
  ⟨(preview_bound (List.replicate 501 'x')).1 (by simp),
   (preview_bound ['x']).2 (by simp)⟩

/-- C8: every run that reaches transcription calls the model's
transcription operation exactly once, with the configured input path and
language and the fixed flags: `verbose=True`, `fp16=True`,
`task="transcribe"`, and the fixed priming prompt. -/
theorem transcribe_call_args (a : Transcribe.Args) (env : Transcribe.Env)
    (h : Transcribe.transcribeCalls (Transcribe.main a env) ≠ []) :
    Transcribe.transcribeCalls (Transcribe.main a env) =
      [{ path := a.input, language := a.language, verbose := true, fp16 := true,
         task := "transcribe",
         initial_prompt := "这是一部日语电影，包含清晰的对话。请准确转录。" }] := by
  cases hex : env.inputExists with
  | false => exact absurd (by simp [Transcribe.main, hex, Transcribe.transcribeCalls]) h
  | true =>
    by_cases hy : Transcribe.pyLower env.response = "y"
    · simp [Transcribe.main, hex, hy, Transcribe.transcribeCalls]
    · exact absurd (by simp [Transcribe.main, hex, hy, Transcribe.transcribeCalls]) h

theorem transcribe_call_args_witness :
    Transcribe.transcribeCalls (Transcribe.main Transcribe.wArgs Transcribe.wEnvYes) =
      [{ path := Transcribe.wArgs.input, language := Transcribe.wArgs.language,
         verbose := true, fp16 := true, task := "transcribe",
         initial_prompt := "这是一部日语电影，包含清晰的对话。请准确转录。" }] :=
  transcribe_call_args Transcribe.wArgs Transcribe.wEnvYes (by decide)

/-- C9: a successful run writes exactly two files, in the output
directory, named from the input base name, the language code and one
shared completion timestamp: `{base}_{lang}_{ts}.srt` and
`{base}_{lang}_{ts}.txt`; the two paths are distinct and the timestamp is
well formed (`YYYYMMDD_HHMMSS`). -/
theorem output_files (a : Transcribe.Args) (env : Transcribe.Env)
    (hex : env.inputExists = true)
    (hy : Transcribe.pyLower env.response = "y") :
    Transcribe.writtenFiles (Transcribe.main a env) =
      [Transcribe.pathJoin a.output_dir
         (Transcribe.splitextRoot (Transcribe.basename a.input) ++ "_" ++
           a.language ++ "_" ++ Transcribe.strftime_YmdHMS env.tm ++ ".srt"),
       Transcribe.pathJoin a.output_dir
         (Transcribe.splitextRoot (Transcribe.basename a.input) ++ "_" ++
           a.language ++ "_" ++ Transcribe.strftime_YmdHMS env.tm ++ ".txt")] ∧
      Transcribe.pathJoin a.output_dir
          (Transcribe.splitextRoot (Transcribe.basename a.input) ++ "_" ++
            a.language ++ "_" ++ Transcribe.strftime_YmdHMS env.tm ++ ".srt") ≠
        Transcribe.pathJoin a.output_dir
          (Transcribe.splitextRoot (Transcribe.basename a.input) ++ "_" ++
            a.language ++ "_" ++ Transcribe.strftime_YmdHMS env.tm ++ ".txt") ∧
      Transcribe.isTimestampFormat (Transcribe.strftime_YmdHMS env.tm) = true := by
  refine ⟨?_, Transcribe.pathJoin_ne_of_ne _ (Transcribe.ext_srt_ne_txt _),
    Transcribe.strftime_isTimestampFormat env.tm⟩
  simp [Transcribe.main, hex, hy, Transcribe.writtenFiles]

theorem output_files_witness :
    Transcribe.writtenFiles (Transcribe.main Transcribe.wArgs Transcribe.wEnvYes) =
      [Transcribe.pathJoin Transcribe.wArgs.output_dir
         (Transcribe.splitextRoot (Transcribe.basename Transcribe.wArgs.input) ++ "_" ++
           Transcribe.wArgs.language ++ "_" ++
           Transcribe.strftime_YmdHMS Transcribe.wEnvYes.tm ++ ".srt"),
       Transcribe.pathJoin Transcribe.wArgs.output_dir
         (Transcribe.splitextRoot (Transcribe.basename Transcribe.wArgs.input) ++ "_" ++
           Transcribe.wArgs.language ++ "_" ++
           Transcribe.strftime_YmdHMS Transcribe.wEnvYes.tm ++ ".txt")] ∧
      Transcribe.pathJoin Transcribe.wArgs.output_dir
          (Transcribe.splitextRoot (Transcribe.basename Transcribe.wArgs.input) ++ "_" ++
            Transcribe.wArgs.language ++ "_" ++
            Transcribe.strftime_YmdHMS Transcribe.wEnvYes.tm ++ ".srt") ≠
        Transcribe.pathJoin Transcribe.wArgs.output_dir
          (Transcribe.splitextRoot (Transcribe.basename Transcribe.wArgs.input) ++ "_" ++
            Transcribe.wArgs.language ++ "_" ++
            Transcribe.strftime_YmdHMS Transcribe.wEnvYes.tm ++ ".txt") ∧
      Transcribe.isTimestampFormat (Transcribe.strftime_YmdHMS Transcribe.wEnvYes.tm) = true :=
  output_files Transcribe.wArgs Transcribe.wEnvYes rfl (by decide)

/-- C10: whenever the input file exists, the output directory is created
before the confirmation prompt is shown; it therefore exists even when
the operator cancels at the prompt. -/
theorem outdir_before_prompt (a : Transcribe.Args) (env : Transcribe.Env)
    (hex : env.inputExists = true) :
    Transcribe.Event.makeOutputDir ∈ (Transcribe.main a env).events ∧
      ∃ pre post, (Transcribe.main a env).events = pre ++ Transcribe.Event.prompt :: post ∧
        Transcribe.Event.makeOutputDir ∈ pre := by
  by_cases hy : Transcribe.pyLower env.response = "y" <;>
    refine ⟨?_, (Transcribe.main a env).events.take 2,
      (Transcribe.main a env).events.drop 3, ?_, ?_⟩ <;>
    simp [Transcribe.main, hex, hy]

theorem outdir_before_prompt_witness :
    Transcribe.Event.makeOutputDir ∈
        (Transcribe.main Transcribe.wArgs Transcribe.wEnvCancel).events ∧
      ∃ pre post,
        (Transcribe.main Transcribe.wArgs Transcribe.wEnvCancel).events =
          pre ++ Transcribe.Event.prompt :: post ∧
        Transcribe.Event.makeOutputDir ∈ pre :=
  outdir_before_prompt Transcribe.wArgs Transcribe.wEnvCancel rfl
